import Mathlib

set_option autoImplicit false

namespace ErrCheckIf

/-- A resolved identifier occurrence: its source name, the declaration object
it is bound to (`none` models an unresolved identifier, i.e. a nil
`types.Object`), and its source position. -/
structure GoIdent where
  name : String
  obj  : Option Nat
  pos  : Nat
deriving DecidableEq, Repr

/-- Binary operator kinds the linter distinguishes (`token.LOR`, `token.LAND`,
`token.NEQ`, `token.EQL`; everything else is `other`). -/
inductive BinOp where
  | lor | land | neq | eql | other
deriving DecidableEq, Repr

/-- Expressions, embedding the `go/ast` expression shapes the linter inspects.
A call expression carries the resolved signature fact the type checker
supplies for its callee: `none` when `TypeOf(call.Fun)` is not a
`*types.Signature`, otherwise one Bool per declared result position recording
whether that result's type implements the `error` interface
(`types.Implements(results.At(i).Type(), errorType)`). -/
inductive Expr where
  | ident (g : GoIdent)
  | binary (op : BinOp) (x y : Expr)
  | call (fn : Expr) (args : List Expr) (sig : Option (List Bool))
  | selector (recv : Expr) (selName : String)
  | lit
deriving Repr

/-- Statements, embedding the `go/ast` statement shapes the linter inspects.
An `if` body and a `switch`/`select` body are single statements (in the Go AST
they are `*ast.BlockStmt` nodes), while case/comm clause bodies are bare
statement lists (`[]ast.Stmt`), exactly as in `go/ast`. -/
inductive Stmt where
  | assign (lhs rhs : List Expr)
  | ifS (init : Option Stmt) (cond : Expr) (body : Stmt) (els : Option Stmt)
  | ret (results : List Expr)
  | block (stmts : List Stmt)
  | caseClause (body : List Stmt)
  | commClause (body : List Stmt)
  | switchS (init : Option Stmt) (body : Stmt)
  | exprStmt (e : Expr)
  | emptyS
deriving Repr

mutual

/-- Structural equality on expressions; models Go pointer equality of AST
nodes (distinct nodes of an actual tree are structurally distinct in the
developments below, and a pointer always equals itself). -/
def Expr.eqb : Expr → Expr → Bool
  | .ident g, .ident h => g = h
  | .binary o x y, .binary o' x' y' => o = o' && x.eqb x' && y.eqb y'
  | .call f a s, .call f' a' s' => f.eqb f' && Expr.eqbList a a' && s = s'
  | .selector r n, .selector r' n' => r.eqb r' && n = n'
  | .lit, .lit => true
  | _, _ => false

/-- Structural equality on expression lists. -/
def Expr.eqbList : List Expr → List Expr → Bool
  | [], [] => true
  | x :: xs, y :: ys => x.eqb y && Expr.eqbList xs ys
  | _, _ => false

end

mutual

/-- Structural equality on statements; models Go pointer equality of AST
statement nodes. -/
def Stmt.eqb : Stmt → Stmt → Bool
  | .assign l r, .assign l' r' => Expr.eqbList l l' && Expr.eqbList r r'
  | .ifS i c b e, .ifS i' c' b' e' =>
      Stmt.eqbOpt i i' && c.eqb c' && Stmt.eqb b b' && Stmt.eqbOpt e e'
  | .ret r, .ret r' => Expr.eqbList r r'
  | .block s, .block s' => Stmt.eqbList s s'
  | .caseClause s, .caseClause s' => Stmt.eqbList s s'
  | .commClause s, .commClause s' => Stmt.eqbList s s'
  | .switchS i b, .switchS i' b' => Stmt.eqbOpt i i' && Stmt.eqb b b'
  | .exprStmt e, .exprStmt e' => e.eqb e'
  | .emptyS, .emptyS => true
  | _, _ => false

/-- Structural equality on optional statements. -/
def Stmt.eqbOpt : Option Stmt → Option Stmt → Bool
  | none, none => true
  | some s, some s' => Stmt.eqb s s'
  | _, _ => false

/-- Structural equality on statement lists. -/
def Stmt.eqbList : List Stmt → List Stmt → Bool
  | [], [] => true
  | x :: xs, y :: ys => Stmt.eqb x y && Stmt.eqbList xs ys
  | _, _ => false

end

mutual

theorem Expr.eqb_self : ∀ e : Expr, e.eqb e = true
  | .ident g => by simp [Expr.eqb]
  | .binary o x y => by simp [Expr.eqb, Expr.eqb_self x, Expr.eqb_self y]
  | .call f a s => by simp [Expr.eqb, Expr.eqb_self f, Expr.eqbList_self a]
  | .selector r n => by simp [Expr.eqb, Expr.eqb_self r]
  | .lit => rfl

theorem Expr.eqbList_self : ∀ l : List Expr, Expr.eqbList l l = true
  | [] => rfl
  | x :: xs => by simp [Expr.eqbList, Expr.eqb_self x, Expr.eqbList_self xs]

end

mutual

theorem Stmt.eqb_refl : ∀ s : Stmt, s.eqb s = true
  | .assign l r => by simp [Stmt.eqb, Expr.eqbList_self]
  | .ifS i c b e => by
      simp [Stmt.eqb, Stmt.eqbOpt_refl i, Stmt.eqbOpt_refl e, Stmt.eqb_refl b,
        Expr.eqb_self c]
  | .ret r => by simp [Stmt.eqb, Expr.eqbList_self]
  | .block s => by simp [Stmt.eqb, Stmt.eqbList_refl s]
  | .caseClause s => by simp [Stmt.eqb, Stmt.eqbList_refl s]
  | .commClause s => by simp [Stmt.eqb, Stmt.eqbList_refl s]
  | .switchS i b => by simp [Stmt.eqb, Stmt.eqbOpt_refl i, Stmt.eqb_refl b]
  | .exprStmt e => by simp [Stmt.eqb, Expr.eqb_self]
  | .emptyS => rfl

theorem Stmt.eqbOpt_refl : ∀ o : Option Stmt, Stmt.eqbOpt o o = true
  | none => rfl
  | some s => by simp [Stmt.eqbOpt, Stmt.eqb_refl s]

theorem Stmt.eqbList_refl : ∀ l : List Stmt, Stmt.eqbList l l = true
  | [] => rfl
  | x :: xs => by simp [Stmt.eqbList, Stmt.eqb_refl x, Stmt.eqbList_refl xs]

end

/-- The declaration object of Go's universe `nil`
(`types.Universe.Lookup("nil")`), which is never a nil `types.Object`. -/
def nilObj : Nat := 0

/-- Embeds `isNil`: the expression is an identifier whose resolved object is
the universe `nil` object. -/
def isNil : Expr → Bool
  | Expr.ident g => g.obj == some nilObj
  | _ => false

/-- Embeds `isIdent`: the expression is an identifier whose resolved object
equals the target identifier's resolved object (`ObjectOf` identity; two nil
`types.Object` results compare equal, hence the `Option` equality). -/
def isIdentE (e : Expr) (target : GoIdent) : Bool :=
  match e with
  | Expr.ident g => g.obj == target.obj
  | _ => false

/-- Embeds `checkCondition` of `part_000` (identical in `errcheckif.go`):
a disjunction recurses on both operands; `!=`/`==` succeed iff one operand is
the target identifier and the other the universe nil, in either order; a call
succeeds iff its callee is a selector whose receiver is an identifier literally
named `errors`, the selected name is `Is` or `As`, and the first argument is
the target identifier. Every other condition shape is opaque. -/
def checkCondition (cond : Expr) (errIdent : GoIdent) : Bool :=
  match cond with
  | Expr.binary op x y =>
    if op = BinOp.lor then
      checkCondition x errIdent || checkCondition y errIdent
    else if op = BinOp.neq || op = BinOp.eql then
      if isIdentE x errIdent && isNil y then true
      else if isNil x && isIdentE y errIdent then true
      else false
    else false
  | Expr.call fn args _ =>
    match fn with
    | Expr.selector recv selName =>
      match recv with
      | Expr.ident pkgIdent =>
        if pkgIdent.name ≠ "errors" then false
        else if selName ≠ "Is" ∧ selName ≠ "As" then false
        else match args with
          | a :: _ => isIdentE a errIdent
          | [] => false
      | _ => false
    | _ => false
  | _ => false

/-- Embeds `isStmtAValidHandler` of `part_000`: an `if` statement handles iff
its condition passes `checkCondition`; a `return` handles iff one of its
result expressions is an identifier resolving to the target's object. -/
def isStmtAValidHandler (stmt : Stmt) (errIdent : GoIdent) : Bool :=
  match stmt with
  | Stmt.ifS _ cond _ _ => checkCondition cond errIdent
  | Stmt.ret results => results.any (fun r => isIdentE r errIdent)
  | _ => false

/-- One step of the `ast.Inspect` walk in `isIdentifierReassigned`: does this
assignment's left-hand side contain an identifier bound to object `tobj`?
(Non-identifier left-hand operands are skipped, as in the source.) -/
def lhsRebinds (tobj : Nat) (lhs : List Expr) : Bool :=
  lhs.any (fun e =>
    match e with
    | Expr.ident g => g.obj == some tobj
    | _ => false)

mutual

/-- The recursive descent of `ast.Inspect` inside `isIdentifierReassigned`:
true iff the statement contains, at any depth, an assignment whose left-hand
side rebinds object `tobj`. -/
def reassignedIn (tobj : Nat) : Stmt → Bool
  | Stmt.assign lhs _ => lhsRebinds tobj lhs
  | Stmt.ifS init _ body els =>
      reassignedInOpt tobj init || reassignedIn tobj body || reassignedInOpt tobj els
  | Stmt.ret _ => false
  | Stmt.block stmts => reassignedInList tobj stmts
  | Stmt.caseClause body => reassignedInList tobj body
  | Stmt.commClause body => reassignedInList tobj body
  | Stmt.switchS init body => reassignedInOpt tobj init || reassignedIn tobj body
  | Stmt.exprStmt _ => false
  | Stmt.emptyS => false

/-- `reassignedIn` lifted to an optional child node. -/
def reassignedInOpt (tobj : Nat) : Option Stmt → Bool
  | none => false
  | some s => reassignedIn tobj s

/-- `reassignedIn` lifted to a statement list. -/
def reassignedInList (tobj : Nat) : List Stmt → Bool
  | [] => false
  | s :: rest => reassignedIn tobj s || reassignedInList tobj rest

end

/-- Embeds `isIdentifierReassigned` of `part_000`: if the target identifier is
unresolved (`ObjectOf` is nil) the answer is false; otherwise inspect the
statement recursively for an assignment rebinding the same object. -/
def isIdentifierReassigned (stmt : Stmt) (errIdent : GoIdent) : Bool :=
  match errIdent.obj with
  | none => false
  | some tobj => reassignedIn tobj stmt

/-- The indexed loop of `findReturnedError`: walk the declared result
positions left to right (head of `results` is the current position, head of
`lhs` is the left-hand target at the same ordinal index); at an error-capable
position whose in-range left-hand target is a plain identifier not named `_`,
yield it; otherwise continue with the next position. -/
def findErrAux : List Bool → List Expr → Option GoIdent
  | [], _ => none
  | isErr :: restResults, lhs =>
    match (if isErr then
             match lhs.head? with
             | some (Expr.ident g) => if g.name ≠ "_" then some g else none
             | _ => none
           else none) with
    | some g => some g
    | none => findErrAux restResults lhs.tail

/-- Embeds `findReturnedError` of `part_000` (identical in `errcheckif.go`),
as a function of the callee's resolved signature fact and the assignment's
left-hand side. `sig = none` models `TypeOf(call.Fun)` not being a
`*types.Signature`. -/
def findReturnedError (sig : Option (List Bool)) (lhs : List Expr) : Option GoIdent :=
  match sig with
  | none => none
  | some results =>
    if results.length = 0 then none
    else findErrAux results lhs

/-- The inner `j` loop shared by both scanners: examine the statements after
the matched child in order. `some true`: a valid handler was found;
`some false`: the identifier was reassigned first (the Go code returns false
for the whole search); `none`: the list was exhausted without a verdict. -/
def scanAfter (errIdent : GoIdent) : List Stmt → Option Bool
  | [] => none
  | s :: rest =>
    if isStmtAValidHandler s errIdent then some true
    else if isIdentifierReassigned s errIdent then some false
    else scanAfter errIdent rest

/-- The `stmtIdx` loop of `isHandledInSubsequentStatement` in `part_000`:
find the child (by node identity) in the block's list, then scan the
statements after it. `none` also when the child does not occur. -/
def scanBlockFor (errIdent : GoIdent) (child : Stmt) : List Stmt → Option Bool
  | [] => none
  | s :: rest =>
    if s.eqb child then scanAfter errIdent rest
    else scanBlockFor errIdent child rest

/-- The ancestor walk of `isHandledInSubsequentStatement` in `part_000`: at
each path node that is a block statement, match the previously visited node in
its list and scan past it; a handler verdict or a reassignment verdict is
final, otherwise continue outward. Clause bodies are not block statements and
are therefore never scanned by this variant. -/
def handledAux (errIdent : GoIdent) : Stmt → List Stmt → Bool
  | _, [] => false
  | prev, node :: rest =>
    match node with
    | Stmt.block stmts =>
      match scanBlockFor errIdent prev stmts with
      | some b => b
      | none => handledAux errIdent node rest
    | _ => handledAux errIdent node rest

/-- Embeds `isHandledInSubsequentStatement` of `part_000`. The path runs from
the assignment statement itself (`path[0]`) outward to the root, as produced
by `astutil.PathEnclosingInterval`. -/
def isHandledInSubsequentStatement (errIdent : GoIdent) (path : List Stmt) : Bool :=
  match path with
  | [] => false
  | first :: rest => handledAux errIdent first rest

/-- Embeds `isHandledInIfInit` of `part_000`: the path has at least two nodes,
`path[1]` is an `if` statement whose `Init` is exactly `path[0]`, and the
`if`'s own condition passes `checkCondition`. -/
def isHandledInIfInit (errIdent : GoIdent) (path : List Stmt) : Bool :=
  match path with
  | p0 :: p1 :: _ =>
    match p1 with
    | Stmt.ifS init cond _ _ =>
      match init with
      | some i => i.eqb p0 && checkCondition cond errIdent
      | none => false
    | _ => false
  | _ => false

/-- A reported diagnostic: anchor position and message text. -/
structure Diagnostic where
  pos : Nat
  msg : String
deriving DecidableEq, Repr

/-- The message format string of `part_000`:
`"error '%s' is not checked or returned"` applied to the identifier's name. -/
def diagMsg (name : String) : String :=
  "error '" ++ name ++ "' is not checked or returned"

/-- The body of the `Preorder` callback in `run` (`part_000`), for one visited
assignment with enclosing path `path` (whose head is the assignment itself):
require exactly one right-hand expression that is a call; find the tracked
error identifier; try the if-initializer special case, then the sequential
scan; report exactly one diagnostic at the identifier's position if neither
proves handling. -/
def reportAssign (path : List Stmt) (lhs rhs : List Expr) : List Diagnostic :=
  match rhs with
  | [Expr.call _ _ sig] =>
    match findReturnedError sig lhs with
    | none => []
    | some errIdent =>
      if isHandledInIfInit errIdent path then []
      else if isHandledInSubsequentStatement errIdent path then []
      else [⟨errIdent.pos, diagMsg errIdent.name⟩]
  | _ => []

mutual

/-- Embeds the traversal of `run` in `part_000`: the inspector visits every
assignment statement in preorder (the `nodeFilter` admits only assignment
statements, and in this model assignments contain no nested statements); for
each, the enclosing path (node first, then ancestors outward) is reconstructed
and the callback body runs. `anc` is the ancestor chain of the visited
statement, innermost first; descent into children follows syntactic order. -/
def runStmt (anc : List Stmt) : Stmt → List Diagnostic
  | Stmt.assign lhs rhs => reportAssign (Stmt.assign lhs rhs :: anc) lhs rhs
  | Stmt.ifS init cond body els =>
      runOpt (Stmt.ifS init cond body els :: anc) init
        ++ runStmt (Stmt.ifS init cond body els :: anc) body
        ++ runOpt (Stmt.ifS init cond body els :: anc) els
  | Stmt.ret _ => []
  | Stmt.block stmts => runList (Stmt.block stmts :: anc) stmts
  | Stmt.caseClause body => runList (Stmt.caseClause body :: anc) body
  | Stmt.commClause body => runList (Stmt.commClause body :: anc) body
  | Stmt.switchS init body =>
      runOpt (Stmt.switchS init body :: anc) init
        ++ runStmt (Stmt.switchS init body :: anc) body
  | Stmt.exprStmt _ => []
  | Stmt.emptyS => []

/-- `runStmt` lifted to an optional child node. -/
def runOpt (anc : List Stmt) : Option Stmt → List Diagnostic
  | none => []
  | some s => runStmt anc s

/-- `runStmt` lifted to a statement list. -/
def runList (anc : List Stmt) : List Stmt → List Diagnostic
  | [] => []
  | s :: rest => runStmt anc s ++ runList anc rest

end

/-! Concrete sample program used to exhibit the clause-body behaviour of the
`part_000` sequential scanner: an error-producing assignment inside a case
clause body, followed in the same clause body by an `if err != nil` check. -/

/-- Sample tracked identifier `err` (declaration object 1, position 10). -/
def sampleErr : GoIdent := ⟨"err", some 1, 10⟩

/-- Sample error-producing call: second result implements `error`. -/
def sampleCall : Expr := Expr.call Expr.lit [] (some [false, true])

/-- Sample assignment `x, err = f()`. -/
def sampleAssign : Stmt :=
  Stmt.assign [Expr.ident ⟨"x", some 2, 9⟩, Expr.ident sampleErr] [sampleCall]

/-- Sample check `if err != nil { }` over the same declaration object. -/
def sampleCheck : Stmt :=
  Stmt.ifS none
    (Expr.binary BinOp.neq (Expr.ident ⟨"err", some 1, 20⟩)
      (Expr.ident ⟨"nil", some nilObj, 21⟩))
    (Stmt.block []) none

/-- Sample case clause whose body holds the assignment then the check. -/
def sampleClause : Stmt := Stmt.caseClause [sampleAssign, sampleCheck]

/-- The switch body block holding the single clause. -/
def sampleSwitchBody : Stmt := Stmt.block [sampleClause]

/-- The switch statement. -/
def sampleSwitch : Stmt := Stmt.switchS none sampleSwitchBody

/-- The ancestor path of `sampleAssign`, innermost first, as
`astutil.PathEnclosingInterval` produces it. -/
def samplePath : List Stmt :=
  [sampleAssign, sampleClause, sampleSwitchBody, sampleSwitch,
   Stmt.block [sampleSwitch]]

/-! Helper lemmas about the scanners. -/

theorem scanAfter_cons_handler (e : GoIdent) (s : Stmt) (rest : List Stmt)
    (h : isStmtAValidHandler s e = true) :
    scanAfter e (s :: rest) = some true := by
  simp [scanAfter, h]

theorem scanAfter_handler_after (e : GoIdent) (tgt : Stmt) (post : List Stmt)
    (htgt : isStmtAValidHandler tgt e = true) :
    ∀ mid : List Stmt, (∀ s ∈ mid, isIdentifierReassigned s e = false) →
      scanAfter e (mid ++ tgt :: post) = some true
  | [], _ => by simp [scanAfter, htgt]
  | s :: mid, h => by
      rcases hs : isStmtAValidHandler s e with _ | _
      · have hr : isIdentifierReassigned s e = false := h s (by simp)
        have ih := scanAfter_handler_after e tgt post htgt mid
          (fun u hu => h u (by simp [hu]))
        simp [scanAfter, hs, hr, ih]
      · simp [scanAfter, hs]

theorem scanAfter_eq_none (e : GoIdent) :
    ∀ l : List Stmt, (∀ s ∈ l, isStmtAValidHandler s e = false) →
      (∀ s ∈ l, isIdentifierReassigned s e = false) →
      scanAfter e l = none
  | [], _, _ => rfl
  | s :: l, hH, hR => by
      have h1 : isStmtAValidHandler s e = false := hH s (by simp)
      have h2 : isIdentifierReassigned s e = false := hR s (by simp)
      have ih := scanAfter_eq_none e l (fun u hu => hH u (by simp [hu]))
        (fun u hu => hR u (by simp [hu]))
      simp [scanAfter, h1, h2, ih]

theorem findErrAux_eq_none :
    ∀ (results : List Bool) (lhs : List Expr),
      (∀ i, results.get? i = some true →
        ∀ g : GoIdent, lhs.get? i = some (Expr.ident g) → g.name = "_") →
      findErrAux results lhs = none
  | [], _, _ => rfl
  | b :: bs, lhs, h => by
      have hshift : ∀ i, bs.get? i = some true →
          ∀ g : GoIdent, lhs.tail.get? i = some (Expr.ident g) → g.name = "_" := by
        intro i hi g hg
        refine h (i + 1) (by simpa using hi) g ?_
        cases lhs with
        | nil => simp at hg
        | cons a as => simpa using hg
      have ih := findErrAux_eq_none bs lhs.tail hshift
      cases b with
      | false => simp [findErrAux, ih]
      | true =>
        rcases hl : lhs.head? with _ | e
        · simp [findErrAux, hl, ih]
        · cases e with
          | ident g =>
            have hg : lhs.get? 0 = some (Expr.ident g) := by
              cases lhs <;> simp_all
            have : g.name = "_" := h 0 (by simp) g hg
            simp [findErrAux, hl, this, ih]
          | binary op x y => simp [findErrAux, hl, ih]
          | call fn args sig => simp [findErrAux, hl, ih]
          | selector r n => simp [findErrAux, hl, ih]
          | lit => simp [findErrAux, hl, ih]

theorem findReturnedError_none_of_discarded
    (results : List Bool) (lhs : List Expr) (path : List Stmt)
    (fn : Expr) (args : List Expr)
    (hdisc : ∀ i, results.get? i = some true →
      ∀ g : GoIdent, lhs.get? i = some (Expr.ident g) → g.name = "_") :
    findReturnedError (some results) lhs = none
    ∧ reportAssign path lhs [Expr.call fn args (some results)] = [] := by
  have h1 : findReturnedError (some results) lhs = none := by
    unfold findReturnedError
    rcases results with _ | ⟨b, bs⟩
    · simp
    · simp [findErrAux_eq_none (b :: bs) lhs hdisc]
  exact ⟨h1, by simp [reportAssign, h1]⟩

/-- Claim C1: for a tracked error followed in its statement list by an
unrelated non-handling statement, then a statement that contains (at any
depth) an assignment rebinding the same declaration, then an `if` whose
condition would prove the target, the scan stops at the rebinding without
continuing and a diagnostic is produced for the original assignment. -/
theorem c1_rebinding_stops_scan_and_reports
    (errIdent : GoIdent) (lhs : List Expr) (fn : Expr) (args : List Expr)
    (sig : Option (List Bool)) (u r : Stmt) (icond : Expr) (ibody : Stmt)
    (iels : Option Stmt) (post anc : List Stmt)
    (htrack : findReturnedError sig lhs = some errIdent)
    (huH : isStmtAValidHandler u errIdent = false)
    (huR : isIdentifierReassigned u errIdent = false)
    (hrH : isStmtAValidHandler r errIdent = false)
    (hrR : isIdentifierReassigned r errIdent = true)
    (_hcheck : checkCondition icond errIdent = true) :
    isHandledInSubsequentStatement errIdent
      (Stmt.assign lhs [Expr.call fn args sig]
        :: Stmt.block
             (Stmt.assign lhs [Expr.call fn args sig]
               :: u :: r :: Stmt.ifS none icond ibody iels :: post)
        :: anc) = false
    ∧ reportAssign
        (Stmt.assign lhs [Expr.call fn args sig]
          :: Stmt.block
               (Stmt.assign lhs [Expr.call fn args sig]
                 :: u :: r :: Stmt.ifS none icond ibody iels :: post)
          :: anc) lhs [Expr.call fn args sig]
      = [⟨errIdent.pos, diagMsg errIdent.name⟩] := by
  have hsub : isHandledInSubsequentStatement errIdent
      (Stmt.assign lhs [Expr.call fn args sig]
        :: Stmt.block
             (Stmt.assign lhs [Expr.call fn args sig]
               :: u :: r :: Stmt.ifS none icond ibody iels :: post)
        :: anc) = false := by
    simp [isHandledInSubsequentStatement, handledAux, scanBlockFor,
      Stmt.eqb_refl, scanAfter, huH, huR, hrH, hrR]
  exact ⟨hsub, by simp [reportAssign, htrack, isHandledInIfInit, hsub]⟩

/-- Witness for C1, at a concrete program: `x, err = f(); g(err); err = f();
if err != nil { }` yields the diagnostic for the first assignment. -/
theorem c1_rebinding_stops_scan_and_reports_witness :
    isHandledInSubsequentStatement ⟨"err", some 1, 10⟩
      (Stmt.assign [Expr.ident ⟨"x", some 2, 9⟩, Expr.ident ⟨"err", some 1, 10⟩]
          [Expr.call Expr.lit [] (some [false, true])]
        :: Stmt.block
             (Stmt.assign [Expr.ident ⟨"x", some 2, 9⟩, Expr.ident ⟨"err", some 1, 10⟩]
                  [Expr.call Expr.lit [] (some [false, true])]
               :: Stmt.exprStmt (Expr.call Expr.lit [Expr.ident ⟨"err", some 1, 15⟩] none)
               :: Stmt.assign [Expr.ident ⟨"err", some 1, 30⟩]
                    [Expr.call Expr.lit [] (some [false, true])]
               :: Stmt.ifS none
                    (Expr.binary BinOp.neq (Expr.ident ⟨"err", some 1, 35⟩)
                      (Expr.ident ⟨"nil", some nilObj, 36⟩))
                    (Stmt.block []) none
               :: [])
        :: []) = false
    ∧ reportAssign
        (Stmt.assign [Expr.ident ⟨"x", some 2, 9⟩, Expr.ident ⟨"err", some 1, 10⟩]
            [Expr.call Expr.lit [] (some [false, true])]
          :: Stmt.block
               (Stmt.assign [Expr.ident ⟨"x", some 2, 9⟩, Expr.ident ⟨"err", some 1, 10⟩]
                    [Expr.call Expr.lit [] (some [false, true])]
                 :: Stmt.exprStmt (Expr.call Expr.lit [Expr.ident ⟨"err", some 1, 15⟩] none)
                 :: Stmt.assign [Expr.ident ⟨"err", some 1, 30⟩]
                      [Expr.call Expr.lit [] (some [false, true])]
                 :: Stmt.ifS none
                      (Expr.binary BinOp.neq (Expr.ident ⟨"err", some 1, 35⟩)
                        (Expr.ident ⟨"nil", some nilObj, 36⟩))
                      (Stmt.block []) none
                 :: [])
          :: [])
        [Expr.ident ⟨"x", some 2, 9⟩, Expr.ident ⟨"err", some 1, 10⟩]
        [Expr.call Expr.lit [] (some [false, true])]
      = [⟨10, diagMsg "err"⟩] :=
  c1_rebinding_stops_scan_and_reports ⟨"err", some 1, 10⟩
    [Expr.ident ⟨"x", some 2, 9⟩, Expr.ident ⟨"err", some 1, 10⟩]
    Expr.lit [] (some [false, true])
    (Stmt.exprStmt (Expr.call Expr.lit [Expr.ident ⟨"err", some 1, 15⟩] none))
    (Stmt.assign [Expr.ident ⟨"err", some 1, 30⟩]
      [Expr.call Expr.lit [] (some [false, true])])
    (Expr.binary BinOp.neq (Expr.ident ⟨"err", some 1, 35⟩)
      (Expr.ident ⟨"nil", some nilObj, 36⟩))
    (Stmt.block []) none [] []
    (by decide) (by decide) (by decide) (by decide) (by decide) (by decide)

/-- Claim C2: a tracked error followed, in the same statement list and with no
rebinding in between, by a `return` one of whose result expressions resolves
by declaration identity to the tracked variable, counts as handled and no
diagnostic is produced. -/
theorem c2_return_forwarding_handled
    (errIdent : GoIdent) (lhs : List Expr) (fn : Expr) (args : List Expr)
    (sig : Option (List Bool)) (mid post anc : List Stmt)
    (results : List Expr) (res : Expr)
    (htrack : findReturnedError sig lhs = some errIdent)
    (hmid : ∀ s ∈ mid, isIdentifierReassigned s errIdent = false)
    (hmem : res ∈ results) (hres : isIdentE res errIdent = true) :
    isHandledInSubsequentStatement errIdent
      (Stmt.assign lhs [Expr.call fn args sig]
        :: Stmt.block
             (Stmt.assign lhs [Expr.call fn args sig]
               :: (mid ++ Stmt.ret results :: post))
        :: anc) = true
    ∧ reportAssign
        (Stmt.assign lhs [Expr.call fn args sig]
          :: Stmt.block
               (Stmt.assign lhs [Expr.call fn args sig]
                 :: (mid ++ Stmt.ret results :: post))
          :: anc) lhs [Expr.call fn args sig]
      = [] := by
  have hret : isStmtAValidHandler (Stmt.ret results) errIdent = true := by
    simp only [isStmtAValidHandler, List.any_eq_true]
    exact ⟨res, hmem, hres⟩
  have hscan := scanAfter_handler_after errIdent (Stmt.ret results) post hret mid hmid
  have hsub : isHandledInSubsequentStatement errIdent
      (Stmt.assign lhs [Expr.call fn args sig]
        :: Stmt.block
             (Stmt.assign lhs [Expr.call fn args sig]
               :: (mid ++ Stmt.ret results :: post))
        :: anc) = true := by
    simp [isHandledInSubsequentStatement, handledAux, scanBlockFor,
      Stmt.eqb_refl, hscan]
  exact ⟨hsub, by simp [reportAssign, htrack, isHandledInIfInit, hsub]⟩

/-- Witness for C2, at a concrete program: `x, err = f(); g(); return s, err`
produces no diagnostic. -/
theorem c2_return_forwarding_handled_witness :
    isHandledInSubsequentStatement ⟨"err", some 1, 10⟩
      (Stmt.assign [Expr.ident ⟨"x", some 2, 9⟩, Expr.ident ⟨"err", some 1, 10⟩]
          [Expr.call Expr.lit [] (some [false, true])]
        :: Stmt.block
             (Stmt.assign [Expr.ident ⟨"x", some 2, 9⟩, Expr.ident ⟨"err", some 1, 10⟩]
                  [Expr.call Expr.lit [] (some [false, true])]
               :: ([Stmt.exprStmt (Expr.call Expr.lit [] none)]
                    ++ Stmt.ret [Expr.ident ⟨"s", some 3, 40⟩, Expr.ident ⟨"err", some 1, 41⟩] :: []))
        :: []) = true
    ∧ reportAssign
        (Stmt.assign [Expr.ident ⟨"x", some 2, 9⟩, Expr.ident ⟨"err", some 1, 10⟩]
            [Expr.call Expr.lit [] (some [false, true])]
          :: Stmt.block
               (Stmt.assign [Expr.ident ⟨"x", some 2, 9⟩, Expr.ident ⟨"err", some 1, 10⟩]
                    [Expr.call Expr.lit [] (some [false, true])]
                 :: ([Stmt.exprStmt (Expr.call Expr.lit [] none)]
                      ++ Stmt.ret [Expr.ident ⟨"s", some 3, 40⟩, Expr.ident ⟨"err", some 1, 41⟩] :: []))
          :: [])
        [Expr.ident ⟨"x", some 2, 9⟩, Expr.ident ⟨"err", some 1, 10⟩]
        [Expr.call Expr.lit [] (some [false, true])]
      = [] :=
  c2_return_forwarding_handled ⟨"err", some 1, 10⟩
    [Expr.ident ⟨"x", some 2, 9⟩, Expr.ident ⟨"err", some 1, 10⟩]
    Expr.lit [] (some [false, true])
    [Stmt.exprStmt (Expr.call Expr.lit [] none)] [] []
    [Expr.ident ⟨"s", some 3, 40⟩, Expr.ident ⟨"err", some 1, 41⟩]
    (Expr.ident ⟨"err", some 1, 41⟩)
    (by decide) (by decide) (by simp) (by decide)

/-- Claim C3: an error-producing assignment that is the initializer clause of
an `if` whose own condition proves the tracked identifier is handled by the
if-initializer special case alone, for every surrounding context (no sibling
statement is needed). -/
theorem c3_if_init_handled
    (errIdent : GoIdent) (lhs : List Expr) (fn : Expr) (args : List Expr)
    (sig : Option (List Bool)) (cond : Expr) (body : Stmt) (els : Option Stmt)
    (anc : List Stmt)
    (htrack : findReturnedError sig lhs = some errIdent)
    (hc : checkCondition cond errIdent = true) :
    isHandledInIfInit errIdent
      (Stmt.assign lhs [Expr.call fn args sig]
        :: Stmt.ifS (some (Stmt.assign lhs [Expr.call fn args sig])) cond body els
        :: anc) = true
    ∧ reportAssign
        (Stmt.assign lhs [Expr.call fn args sig]
          :: Stmt.ifS (some (Stmt.assign lhs [Expr.call fn args sig])) cond body els
          :: anc) lhs [Expr.call fn args sig]
      = [] := by
  have h1 : isHandledInIfInit errIdent
      (Stmt.assign lhs [Expr.call fn args sig]
        :: Stmt.ifS (some (Stmt.assign lhs [Expr.call fn args sig])) cond body els
        :: anc) = true := by
    simp [isHandledInIfInit, Stmt.eqb_refl, hc]
  exact ⟨h1, by simp [reportAssign, htrack, h1]⟩

/-- Witness for C3, at the concrete program `if _, err = f(); err != nil { }`
with no statement after the `if`. -/
theorem c3_if_init_handled_witness :
    isHandledInIfInit ⟨"err", some 1, 10⟩
      (Stmt.assign [Expr.ident ⟨"_", none, 9⟩, Expr.ident ⟨"err", some 1, 10⟩]
          [Expr.call Expr.lit [] (some [false, true])]
        :: Stmt.ifS
             (some (Stmt.assign [Expr.ident ⟨"_", none, 9⟩, Expr.ident ⟨"err", some 1, 10⟩]
               [Expr.call Expr.lit [] (some [false, true])]))
             (Expr.binary BinOp.neq (Expr.ident ⟨"err", some 1, 15⟩)
               (Expr.ident ⟨"nil", some nilObj, 16⟩))
             (Stmt.block []) none
        :: []) = true
    ∧ reportAssign
        (Stmt.assign [Expr.ident ⟨"_", none, 9⟩, Expr.ident ⟨"err", some 1, 10⟩]
            [Expr.call Expr.lit [] (some [false, true])]
          :: Stmt.ifS
               (some (Stmt.assign [Expr.ident ⟨"_", none, 9⟩, Expr.ident ⟨"err", some 1, 10⟩]
                 [Expr.call Expr.lit [] (some [false, true])]))
               (Expr.binary BinOp.neq (Expr.ident ⟨"err", some 1, 15⟩)
                 (Expr.ident ⟨"nil", some nilObj, 16⟩))
               (Stmt.block []) none
          :: [])
        [Expr.ident ⟨"_", none, 9⟩, Expr.ident ⟨"err", some 1, 10⟩]
        [Expr.call Expr.lit [] (some [false, true])]
      = [] :=
  c3_if_init_handled ⟨"err", some 1, 10⟩
    [Expr.ident ⟨"_", none, 9⟩, Expr.ident ⟨"err", some 1, 10⟩]
    Expr.lit [] (some [false, true])
    (Expr.binary BinOp.neq (Expr.ident ⟨"err", some 1, 15⟩)
      (Expr.ident ⟨"nil", some nilObj, 16⟩))
    (Stmt.block []) none []
    (by decide) (by decide)

/-- Claim C4: the condition classifier distributes over disjunction —
`proves(A or B) = proves(A) or proves(B)` — while a conjunction is always
opaque: `proves(A and B)` is false for every pair of operands. -/
theorem c4_lor_distributes_land_opaque :
    (∀ (x y : Expr) (t : GoIdent),
        checkCondition (Expr.binary BinOp.lor x y) t
          = (checkCondition x t || checkCondition y t))
    ∧ (∀ (x y : Expr) (t : GoIdent),
        checkCondition (Expr.binary BinOp.land x y) t = false) := by
  refine ⟨fun x y t => ?_, fun x y t => ?_⟩ <;> simp [checkCondition]

/-- Counterexample to claim C5 as stated: in the `part_000` scanner, a tracked
error assigned inside a case clause body and followed **in that same clause
body** by a proving `if err != nil` check is NOT treated as handled — clause
bodies are not block statements, so their statement lists are never scanned —
and running the pass over the whole sample program emits a diagnostic. -/
theorem c5_counterexample :
    checkCondition
      (Expr.binary BinOp.neq (Expr.ident ⟨"err", some 1, 20⟩)
        (Expr.ident ⟨"nil", some nilObj, 21⟩)) sampleErr = true
    ∧ isHandledInSubsequentStatement sampleErr samplePath = false
    ∧ runStmt [] (Stmt.block [sampleSwitch]) = [⟨10, diagMsg "err"⟩] := by
  decide

/-- Claim C5 (amended): the `part_000` handler search scans only block
statement lists along the ancestor chain — statements after the assignment in
the same clause body are not scanned — and it continues outward: clause nodes
are never valid handlers (so a statement inside a sibling branch/case body is
never treated as a handler), and a proving `if` after the enclosing
switch-like construct, reached with no rebinding in between, is found. -/
theorem c5_amended_block_scope_outward
    (errIdent : GoIdent) (a clause swB sw hstmt : Stmt)
    (cbody clausesAfter post anc : List Stmt)
    (sInit : Option Stmt) (hcond : Expr) (hbody : Stmt) (hels : Option Stmt)
    (hclause : clause = Stmt.caseClause cbody)
    (hswB : swB = Stmt.block (clause :: clausesAfter))
    (hsw : sw = Stmt.switchS sInit swB)
    (hh : hstmt = Stmt.ifS none hcond hbody hels)
    (hc : checkCondition hcond errIdent = true)
    (hshape : ∀ c ∈ clausesAfter,
      (∃ b, c = Stmt.caseClause b) ∨ (∃ b, c = Stmt.commClause b))
    (hR : ∀ c ∈ clausesAfter, isIdentifierReassigned c errIdent = false) :
    (∀ b : List Stmt,
        isStmtAValidHandler (Stmt.caseClause b) errIdent = false
        ∧ isStmtAValidHandler (Stmt.commClause b) errIdent = false)
    ∧ isHandledInSubsequentStatement errIdent
        (a :: clause :: swB :: sw :: Stmt.block (sw :: hstmt :: post) :: anc)
      = true := by
  have hclauses : ∀ b : List Stmt,
      isStmtAValidHandler (Stmt.caseClause b) errIdent = false
      ∧ isStmtAValidHandler (Stmt.commClause b) errIdent = false := by
    intro b
    exact ⟨rfl, rfl⟩
  refine ⟨hclauses, ?_⟩
  have hH : ∀ c ∈ clausesAfter, isStmtAValidHandler c errIdent = false := by
    intro c hcm
    rcases hshape c hcm with ⟨b, rfl⟩ | ⟨b, rfl⟩
    · exact (hclauses b).1
    · exact (hclauses b).2
  have hafter : scanAfter errIdent clausesAfter = none :=
    scanAfter_eq_none errIdent clausesAfter hH hR
  have hhandler : isStmtAValidHandler hstmt errIdent = true := by
    subst hh
    simpa [isStmtAValidHandler] using hc
  subst hclause hswB hsw
  simp [isHandledInSubsequentStatement, handledAux, scanBlockFor,
    Stmt.eqb_refl, hafter, scanAfter, hhandler]

/-- Witness for the amended C5, at a concrete program: an assignment inside a
case clause, a sibling clause after it, and an `if err != nil` after the
switch statement; the search skips the clause bodies and succeeds outward. -/
theorem c5_amended_block_scope_outward_witness :
    isStmtAValidHandler (Stmt.caseClause [Stmt.exprStmt Expr.lit]) ⟨"err", some 1, 10⟩ = false
    ∧ isStmtAValidHandler (Stmt.commClause [Stmt.exprStmt Expr.lit]) ⟨"err", some 1, 10⟩ = false
    ∧ isHandledInSubsequentStatement ⟨"err", some 1, 10⟩
        (Stmt.assign [Expr.ident ⟨"err", some 1, 10⟩]
            [Expr.call Expr.lit [] (some [true])]
          :: Stmt.caseClause
               [Stmt.assign [Expr.ident ⟨"err", some 1, 10⟩]
                 [Expr.call Expr.lit [] (some [true])]]
          :: Stmt.block
               (Stmt.caseClause
                   [Stmt.assign [Expr.ident ⟨"err", some 1, 10⟩]
                     [Expr.call Expr.lit [] (some [true])]]
                 :: [Stmt.caseClause [Stmt.exprStmt Expr.lit]])
          :: Stmt.switchS none
               (Stmt.block
                 (Stmt.caseClause
                     [Stmt.assign [Expr.ident ⟨"err", some 1, 10⟩]
                       [Expr.call Expr.lit [] (some [true])]]
                   :: [Stmt.caseClause [Stmt.exprStmt Expr.lit]]))
          :: Stmt.block
               (Stmt.switchS none
                   (Stmt.block
                     (Stmt.caseClause
                         [Stmt.assign [Expr.ident ⟨"err", some 1, 10⟩]
                           [Expr.call Expr.lit [] (some [true])]]
                       :: [Stmt.caseClause [Stmt.exprStmt Expr.lit]]))
                 :: Stmt.ifS none
                      (Expr.binary BinOp.neq (Expr.ident ⟨"err", some 1, 50⟩)
                        (Expr.ident ⟨"nil", some nilObj, 51⟩))
                      (Stmt.block []) none
                 :: [])
          :: []) = true := by
  have h := c5_amended_block_scope_outward ⟨"err", some 1, 10⟩
    (Stmt.assign [Expr.ident ⟨"err", some 1, 10⟩]
      [Expr.call Expr.lit [] (some [true])])
    (Stmt.caseClause
      [Stmt.assign [Expr.ident ⟨"err", some 1, 10⟩]
        [Expr.call Expr.lit [] (some [true])]])
    (Stmt.block
      (Stmt.caseClause
          [Stmt.assign [Expr.ident ⟨"err", some 1, 10⟩]
            [Expr.call Expr.lit [] (some [true])]]
        :: [Stmt.caseClause [Stmt.exprStmt Expr.lit]]))
    (Stmt.switchS none
      (Stmt.block
        (Stmt.caseClause
            [Stmt.assign [Expr.ident ⟨"err", some 1, 10⟩]
              [Expr.call Expr.lit [] (some [true])]]
          :: [Stmt.caseClause [Stmt.exprStmt Expr.lit]])))
    (Stmt.ifS none
      (Expr.binary BinOp.neq (Expr.ident ⟨"err", some 1, 50⟩)
        (Expr.ident ⟨"nil", some nilObj, 51⟩))
      (Stmt.block []) none)
    [Stmt.assign [Expr.ident ⟨"err", some 1, 10⟩]
      [Expr.call Expr.lit [] (some [true])]]
    [Stmt.caseClause [Stmt.exprStmt Expr.lit]]
    [] [] none
    (Expr.binary BinOp.neq (Expr.ident ⟨"err", some 1, 50⟩)
      (Expr.ident ⟨"nil", some nilObj, 51⟩))
    (Stmt.block []) none
    rfl rfl rfl rfl (by decide)
    (by intro c hcm; simp at hcm; exact Or.inl ⟨[Stmt.exprStmt Expr.lit], hcm⟩)
    (by intro c hcm; simp at hcm; subst hcm; decide)
  exact ⟨(h.1 [Stmt.exprStmt Expr.lit]).1, (h.1 [Stmt.exprStmt Expr.lit]).2, h.2⟩

/-- Claim C6: an `!=` or `==` comparison proves the tracked error iff one
operand resolves by declaration identity to the target and the other operand
is the nil sentinel, in either operand order; consequently a tracked error
immediately followed in the same scope by `if target != nil { }` or
`if target == nil { }` produces no diagnostic. -/
theorem c6_nil_comparison_both_polarities
    (op : BinOp) (hop : op = BinOp.neq ∨ op = BinOp.eql) :
    (∀ (x y : Expr) (t : GoIdent),
        checkCondition (Expr.binary op x y) t
          = ((isIdentE x t && isNil y) || (isNil x && isIdentE y t)))
    ∧ (∀ (occ nilOcc errIdent : GoIdent) (lhs : List Expr) (fn : Expr)
        (args : List Expr) (sig : Option (List Bool)) (body : Stmt)
        (els : Option Stmt) (post anc : List Stmt),
        occ.obj = errIdent.obj → nilOcc.obj = some nilObj →
        findReturnedError sig lhs = some errIdent →
        reportAssign
          (Stmt.assign lhs [Expr.call fn args sig]
            :: Stmt.block
                 (Stmt.assign lhs [Expr.call fn args sig]
                   :: Stmt.ifS none
                        (Expr.binary op (Expr.ident occ) (Expr.ident nilOcc))
                        body els
                   :: post)
            :: anc) lhs [Expr.call fn args sig] = []) := by
  have hchar : ∀ (x y : Expr) (t : GoIdent),
      checkCondition (Expr.binary op x y) t
        = ((isIdentE x t && isNil y) || (isNil x && isIdentE y t)) := by
    intro x y t
    rcases hop with rfl | rfl <;>
      cases h1 : isIdentE x t <;> cases h2 : isNil y <;>
        cases h3 : isNil x <;> cases h4 : isIdentE y t <;>
          simp [checkCondition, h1, h2, h3, h4]
  refine ⟨hchar, ?_⟩
  intro occ nilOcc errIdent lhs fn args sig body els post anc hocc hnil htrack
  have hcond : checkCondition
      (Expr.binary op (Expr.ident occ) (Expr.ident nilOcc)) errIdent = true := by
    rw [hchar]
    simp [isIdentE, isNil, hocc, hnil]
  have hhandler : isStmtAValidHandler
      (Stmt.ifS none (Expr.binary op (Expr.ident occ) (Expr.ident nilOcc)) body els)
      errIdent = true := by
    simpa [isStmtAValidHandler] using hcond
  have hsub : isHandledInSubsequentStatement errIdent
      (Stmt.assign lhs [Expr.call fn args sig]
        :: Stmt.block
             (Stmt.assign lhs [Expr.call fn args sig]
               :: Stmt.ifS none
                    (Expr.binary op (Expr.ident occ) (Expr.ident nilOcc))
                    body els
               :: post)
        :: anc) = true := by
    simp [isHandledInSubsequentStatement, handledAux, scanBlockFor,
      Stmt.eqb_refl, scanAfter, hhandler]
  simp [reportAssign, htrack, isHandledInIfInit, hsub]

/-- Witness for C6, at the concrete program `x, err = f(); if err == nil { }`:
the `==` polarity also counts as handled and no diagnostic is produced. -/
theorem c6_nil_comparison_both_polarities_witness :
    checkCondition
      (Expr.binary BinOp.eql (Expr.ident ⟨"err", some 1, 15⟩)
        (Expr.ident ⟨"nil", some nilObj, 16⟩)) ⟨"err", some 1, 10⟩
      = ((isIdentE (Expr.ident ⟨"err", some 1, 15⟩) ⟨"err", some 1, 10⟩
            && isNil (Expr.ident ⟨"nil", some nilObj, 16⟩))
          || (isNil (Expr.ident ⟨"err", some 1, 15⟩)
            && isIdentE (Expr.ident ⟨"nil", some nilObj, 16⟩) ⟨"err", some 1, 10⟩))
    ∧ reportAssign
        (Stmt.assign [Expr.ident ⟨"x", some 2, 9⟩, Expr.ident ⟨"err", some 1, 10⟩]
            [Expr.call Expr.lit [] (some [false, true])]
          :: Stmt.block
               (Stmt.assign [Expr.ident ⟨"x", some 2, 9⟩, Expr.ident ⟨"err", some 1, 10⟩]
                    [Expr.call Expr.lit [] (some [false, true])]
                 :: Stmt.ifS none
                      (Expr.binary BinOp.eql (Expr.ident ⟨"err", some 1, 15⟩)
                        (Expr.ident ⟨"nil", some nilObj, 16⟩))
                      (Stmt.block []) none
                 :: [])
          :: [])
        [Expr.ident ⟨"x", some 2, 9⟩, Expr.ident ⟨"err", some 1, 10⟩]
        [Expr.call Expr.lit [] (some [false, true])]
      = [] :=
  ⟨(c6_nil_comparison_both_polarities BinOp.eql (Or.inr rfl)).1
      (Expr.ident ⟨"err", some 1, 15⟩) (Expr.ident ⟨"nil", some nilObj, 16⟩)
      ⟨"err", some 1, 10⟩,
    (c6_nil_comparison_both_polarities BinOp.eql (Or.inr rfl)).2
      ⟨"err", some 1, 15⟩ ⟨"nil", some nilObj, 16⟩ ⟨"err", some 1, 10⟩
      [Expr.ident ⟨"x", some 2, 9⟩, Expr.ident ⟨"err", some 1, 10⟩]
      Expr.lit [] (some [false, true]) (Stmt.block []) none [] []
      rfl rfl (by decide)⟩

/-- Counterexample to claim C7 as stated: with two error-capable result
positions, the left-hand discard placeholder at the FIRST error-capable
position does not make the detector return nothing — the loop continues and
the SECOND error-capable position's identifier is tracked, and (unhandled
here) a diagnostic is produced for the assignment. -/
theorem c7_counterexample :
    findReturnedError (some [true, true])
        [Expr.ident ⟨"_", none, 1⟩, Expr.ident ⟨"err", some 5, 3⟩]
      = some ⟨"err", some 5, 3⟩
    ∧ reportAssign
        [Stmt.assign [Expr.ident ⟨"_", none, 1⟩, Expr.ident ⟨"err", some 5, 3⟩]
          [Expr.call Expr.lit [] (some [true, true])]]
        [Expr.ident ⟨"_", none, 1⟩, Expr.ident ⟨"err", some 5, 3⟩]
        [Expr.call Expr.lit [] (some [true, true])]
      = [⟨3, diagMsg "err"⟩] := by
  decide

/-- Claim C7 (amended): the detector returns no tracked identifier — and no
diagnostic is produced — exactly when EVERY error-capable result position's
in-range left-hand target that is a plain identifier is the discard
placeholder `_` (in particular when a single error-capable slot is discarded);
a discard at only the first of several error-capable positions does not stop
the scan. -/
theorem c7_amended_every_error_slot_discarded
    (results : List Bool) (lhs : List Expr) (path : List Stmt)
    (fn : Expr) (args : List Expr)
    (hdisc : ∀ i, results.get? i = some true →
      ∀ g : GoIdent, lhs.get? i = some (Expr.ident g) → g.name = "_") :
    findReturnedError (some results) lhs = none
    ∧ reportAssign path lhs [Expr.call fn args (some results)] = [] :=
  findReturnedError_none_of_discarded results lhs path fn args hdisc

/-- Witness for the amended C7, at the concrete assignment `x, _ = f()` whose
call's second result is the error slot: nothing is tracked, no diagnostic. -/
theorem c7_amended_every_error_slot_discarded_witness :
    findReturnedError (some [false, true])
        [Expr.ident ⟨"x", some 2, 1⟩, Expr.ident ⟨"_", none, 3⟩] = none
    ∧ reportAssign
        [Stmt.assign [Expr.ident ⟨"x", some 2, 1⟩, Expr.ident ⟨"_", none, 3⟩]
          [Expr.call Expr.lit [] (some [false, true])]]
        [Expr.ident ⟨"x", some 2, 1⟩, Expr.ident ⟨"_", none, 3⟩]
        [Expr.call Expr.lit [] (some [false, true])]
      = [] :=
  c7_amended_every_error_slot_discarded [false, true]
    [Expr.ident ⟨"x", some 2, 1⟩, Expr.ident ⟨"_", none, 3⟩]
    [Stmt.assign [Expr.ident ⟨"x", some 2, 1⟩, Expr.ident ⟨"_", none, 3⟩]
      [Expr.call Expr.lit [] (some [false, true])]]
    Expr.lit []
    (by
      intro i hi g hg
      match i with
      | 0 => simp at hi
      | 1 =>
        simp at hg
        simp [← hg]
      | n + 2 => simp at hi)

/-- Counterexample to claim C8 as stated: a left-hand-side count (2) differing
from the call's declared result count (1) does not make the detector return
nothing — the error-capable position 0 is still within the left-hand list, so
its identifier is tracked. -/
theorem c8_counterexample :
    ([true] : List Bool).length
        ≠ ([Expr.ident ⟨"err", some 5, 3⟩, Expr.ident ⟨"x", some 6, 4⟩] : List Expr).length
    ∧ findReturnedError (some [true])
        [Expr.ident ⟨"err", some 5, 3⟩, Expr.ident ⟨"x", some 6, 4⟩]
      = some ⟨"err", some 5, 3⟩ := by
  decide

/-- Claim C8 (amended): the detector never guesses an index beyond the
left-hand list: whenever every error-capable result position's index is out of
range of the left-hand side (in particular when the left-hand list is shorter
and all error slots fall beyond it), it returns no tracked identifier and no
diagnostic is produced. An arity mismatch that still leaves an error slot in
range is tracked normally. -/
theorem c8_amended_no_out_of_range_guess
    (results : List Bool) (lhs : List Expr) (path : List Stmt)
    (fn : Expr) (args : List Expr)
    (hoob : ∀ i, results.get? i = some true → lhs.length ≤ i) :
    findReturnedError (some results) lhs = none
    ∧ reportAssign path lhs [Expr.call fn args (some results)] = [] := by
  have hdisc : ∀ i, results.get? i = some true →
      ∀ g : GoIdent, lhs.get? i = some (Expr.ident g) → g.name = "_" := by
    intro i hi g hg
    have hnone : lhs.get? i = none := List.get?_eq_none.mpr (hoob i hi)
    rw [hnone] at hg
    cases hg
  exact findReturnedError_none_of_discarded results lhs path fn args hdisc

/-- Witness for the amended C8: one left-hand target, error slot at result
position 1 (out of range): nothing is tracked, no diagnostic. -/
theorem c8_amended_no_out_of_range_guess_witness :
    findReturnedError (some [false, true]) [Expr.ident ⟨"x", some 2, 1⟩] = none
    ∧ reportAssign
        [Stmt.assign [Expr.ident ⟨"x", some 2, 1⟩]
          [Expr.call Expr.lit [] (some [false, true])]]
        [Expr.ident ⟨"x", some 2, 1⟩]
        [Expr.call Expr.lit [] (some [false, true])]
      = [] :=
  c8_amended_no_out_of_range_guess [false, true]
    [Expr.ident ⟨"x", some 2, 1⟩]
    [Stmt.assign [Expr.ident ⟨"x", some 2, 1⟩]
      [Expr.call Expr.lit [] (some [false, true])]]
    Expr.lit []
    (by
      intro i hi
      match i with
      | 0 => simp at hi
      | n + 1 => simp)

theorem mem_reportAssign_shape (path : List Stmt) (lhs rhs : List Expr)
    (d : Diagnostic) (hd : d ∈ reportAssign path lhs rhs) :
    ∃ nm p, d = ⟨p, diagMsg nm⟩ := by
  unfold reportAssign at hd
  split at hd
  · split at hd
    · simp at hd
    · split at hd
      · simp at hd
      · split at hd
        · simp at hd
        · simp at hd
          exact ⟨_, _, hd⟩
  · simp at hd

mutual

theorem runStmt_msg_shape :
    ∀ (anc : List Stmt) (s : Stmt) (d : Diagnostic), d ∈ runStmt anc s →
      ∃ nm p, d = ⟨p, diagMsg nm⟩
  | anc, Stmt.assign lhs rhs, d, hd =>
      mem_reportAssign_shape _ lhs rhs d (by simpa [runStmt] using hd)
  | anc, Stmt.ifS init c b e, d, hd => by
      simp only [runStmt] at hd
      rcases List.mem_append.1 hd with h | h
      · rcases List.mem_append.1 h with h2 | h2
        · exact runOpt_msg_shape _ _ _ h2
        · exact runStmt_msg_shape _ _ _ h2
      · exact runOpt_msg_shape _ _ _ h
  | anc, Stmt.ret r, d, hd => by simp [runStmt] at hd
  | anc, Stmt.block ss, d, hd =>
      runList_msg_shape _ _ _ (by simpa [runStmt] using hd)
  | anc, Stmt.caseClause ss, d, hd =>
      runList_msg_shape _ _ _ (by simpa [runStmt] using hd)
  | anc, Stmt.commClause ss, d, hd =>
      runList_msg_shape _ _ _ (by simpa [runStmt] using hd)
  | anc, Stmt.switchS i b, d, hd => by
      simp only [runStmt] at hd
      rcases List.mem_append.1 hd with h | h
      · exact runOpt_msg_shape _ _ _ h
      · exact runStmt_msg_shape _ _ _ h
  | anc, Stmt.exprStmt e, d, hd => by simp [runStmt] at hd
  | anc, Stmt.emptyS, d, hd => by simp [runStmt] at hd

theorem runOpt_msg_shape :
    ∀ (anc : List Stmt) (o : Option Stmt) (d : Diagnostic), d ∈ runOpt anc o →
      ∃ nm p, d = ⟨p, diagMsg nm⟩
  | anc, none, d, hd => by simp [runOpt] at hd
  | anc, some s, d, hd => runStmt_msg_shape anc s d (by simpa [runOpt] using hd)

theorem runList_msg_shape :
    ∀ (anc : List Stmt) (l : List Stmt) (d : Diagnostic), d ∈ runList anc l →
      ∃ nm p, d = ⟨p, diagMsg nm⟩
  | anc, [], d, hd => by simp [runList] at hd
  | anc, s :: rest, d, hd => by
      simp only [runList] at hd
      rcases List.mem_append.1 hd with h | h
      · exact runStmt_msg_shape _ _ _ h
      · exact runList_msg_shape _ _ _ h

end

/-- Claim C9: for a tracked error whose handling cannot be proven, exactly one
diagnostic is emitted, anchored at the tracked identifier's source position,
with message text exactly `error '<name>' is not checked or returned`;
moreover, every diagnostic the whole pass ever emits has exactly this form. -/
theorem c9_one_diagnostic_exact_message
    (path : List Stmt) (lhs : List Expr) (fn : Expr) (args : List Expr)
    (sig : Option (List Bool)) (errIdent : GoIdent)
    (htrack : findReturnedError sig lhs = some errIdent)
    (hinit : isHandledInIfInit errIdent path = false)
    (hsub : isHandledInSubsequentStatement errIdent path = false) :
    reportAssign path lhs [Expr.call fn args sig]
      = [⟨errIdent.pos,
          "error '" ++ errIdent.name ++ "' is not checked or returned"⟩]
    ∧ ∀ (anc : List Stmt) (s : Stmt) (d : Diagnostic), d ∈ runStmt anc s →
        ∃ nm p, d = ⟨p, "error '" ++ nm ++ "' is not checked or returned"⟩ := by
  constructor
  · simp [reportAssign, htrack, hinit, hsub, diagMsg]
  · intro anc s d hd
    simpa [diagMsg] using runStmt_msg_shape anc s d hd

/-- Witness for C9, at the concrete unhandled assignment
`err = f()` with nothing after it. -/
theorem c9_one_diagnostic_exact_message_witness :
    reportAssign
        [Stmt.assign [Expr.ident ⟨"err", some 1, 10⟩]
          [Expr.call Expr.lit [] (some [true])]]
        [Expr.ident ⟨"err", some 1, 10⟩]
        [Expr.call Expr.lit [] (some [true])]
      = [⟨10, "error '" ++ "err" ++ "' is not checked or returned"⟩] :=
  (c9_one_diagnostic_exact_message
    [Stmt.assign [Expr.ident ⟨"err", some 1, 10⟩]
      [Expr.call Expr.lit [] (some [true])]]
    [Expr.ident ⟨"err", some 1, 10⟩] Expr.lit [] (some [true])
    ⟨"err", some 1, 10⟩ (by decide) (by decide) (by decide)).1

/-- Claim C10: the errors-helper predicates are recognized purely
syntactically on the qualifier: a call `X.Is(...)` or `X.As(...)` whose
receiver is an identifier literally named `errors` proves the target exactly
when there is at least one argument and the first argument resolves by
declaration identity to the target — for EVERY declaration object the
qualifier may be bound to (including a user declaration shadowing the
standard package) — while any other receiver name never proves the target. -/
theorem c10_errors_helper_matched_by_name :
    (∀ (qobj : Option Nat) (qpos : Nat) (selName : String) (args : List Expr)
        (sig : Option (List Bool)) (t : GoIdent),
        checkCondition
            (Expr.call (Expr.selector (Expr.ident ⟨"errors", qobj, qpos⟩) selName)
              args sig) t
          = ((selName == "Is" || selName == "As")
              && (match args with
                  | a :: _ => isIdentE a t
                  | [] => false)))
    ∧ (∀ (nm : String) (qobj : Option Nat) (qpos : Nat) (selName : String)
        (args : List Expr) (sig : Option (List Bool)) (t : GoIdent),
        nm ≠ "errors" →
        checkCondition
            (Expr.call (Expr.selector (Expr.ident ⟨nm, qobj, qpos⟩) selName)
              args sig) t = false) := by
  constructor
  · intro qobj qpos selName args sig t
    by_cases his : selName = "Is"
    · subst his
      cases args <;> simp [checkCondition]
    · by_cases has : selName = "As"
      · subst has
        cases args <;> simp [checkCondition]
      · cases args <;> simp [checkCondition, his, has]
  · intro nm qobj qpos selName args sig t hnm
    simp [checkCondition, hnm]

/-- Witness for C10: `errors.Is(err, target)` with the qualifier bound to a
shadowing user declaration (object 99) still proves the target, while
`fmt.Is(err, target)` never does. -/
theorem c10_errors_helper_matched_by_name_witness :
    checkCondition
        (Expr.call (Expr.selector (Expr.ident ⟨"errors", some 99, 1⟩) "Is")
          [Expr.ident ⟨"err", some 1, 2⟩, Expr.lit] none) ⟨"err", some 1, 7⟩
      = true
    ∧ checkCondition
        (Expr.call (Expr.selector (Expr.ident ⟨"fmt", some 4, 1⟩) "Is")
          [Expr.ident ⟨"err", some 1, 2⟩, Expr.lit] none) ⟨"err", some 1, 7⟩
      = false := by
  constructor
  · rw [(c10_errors_helper_matched_by_name).1 (some 99) 1 "Is"
      [Expr.ident ⟨"err", some 1, 2⟩, Expr.lit] none ⟨"err", some 1, 7⟩]
    decide
  · exact (c10_errors_helper_matched_by_name).2 "fmt" (some 4) 1 "Is"
      [Expr.ident ⟨"err", some 1, 2⟩, Expr.lit] none ⟨"err", some 1, 7⟩
      (by decide)

end ErrCheckIf
